import Mathlib

/-!
Shallow embedding of `src/static/js/popup.js` (Budgeteer Notification System).

The script defines a global object `window.BudgeteerNotifications` with four
public entry points (`showSuccess`, `showWarning`, `showDanger`, `showInfo`)
and one internal method `_showToast`, plus a `DOMContentLoaded` handler that
migrates hidden legacy alert nodes (`.alert.d-none`) into toasts.

Modelling choices:
* The DOM fragment the script touches is modelled explicitly: the (at most
  one) `.toast-container` element is an `Option Container`; its toast children
  are a list in document order (`appendChild` appends at the end).
* Each toast node gets a unique `id : Nat` (a fresh-node counter in the
  state) standing for JS object identity, so `toast.remove()` can be modelled
  as removal of that one node.
* `new bootstrap.Toast(toast)` throws a ReferenceError when the `bootstrap`
  global is absent.  Faults are modelled as a `Bool` in the result
  (`true` = an exception was raised at that point); DOM mutations performed
  before the throw persist, and statements after it do not run, exactly as in
  JS.  In particular the `hidden.bs.toast` listener is registered on a toast
  only when `bootstrap` was present at creation time.
* `element.innerHTML = s` stores the raw markup string; the `toast-body`
  div's markup content is the message string spliced verbatim (field
  `bodyHTML`).  `escapeHTML` is the escaping the code does NOT apply.
* `jsTrim` models JS `String.prototype.trim` (the inputs of interest carry
  ASCII whitespace, where the two functions agree): whitespace characters
  are dropped from both ends.  It is written over the character list so
  that it evaluates by kernel reduction.
-/

/-- A toast DOM element as built by `_showToast` (popup.js lines 30-40):
`id` is node identity, `className` / `attrs` the attributes set on it,
`innerHTML` the raw markup assigned, `bodyHTML` the markup content of the
inner `toast-body` div (the `message` spliced in verbatim by the template
literal), `hiddenListener` whether the `hidden.bs.toast` removal listener
got registered (it is registered after `new bootstrap.Toast(...)`, hence
only when the bootstrap global is present). -/
structure Toast where
  id : Nat
  className : String
  attrs : List (String × String)
  innerHTML : String
  bodyHTML : String
  hiddenListener : Bool
deriving DecidableEq

/-- The `.toast-container` element (popup.js lines 23-26). -/
structure Container where
  className : String
  zIndex : String
  children : List Toast
deriving DecidableEq

/-- State seen by the notification object: the container (if one exists in
the document), a fresh-node counter, and whether the `bootstrap` global
(the toast-widget dependency) is present in the host page. -/
structure NotifState where
  container : Option Container
  nextId : Nat
  bootstrapPresent : Bool
deriving DecidableEq

/-- The toast children currently in the container (empty when no container
exists yet). -/
def containerChildren (st : NotifState) : List Toast :=
  match st.container with
  | none => []
  | some c => c.children

/-- Class string of the container created on first use (popup.js line 24). -/
def containerClass : String :=
  "toast-container position-fixed top-0 end-0 p-3"

/-- Class string of a toast of the given type (popup.js line 31, the
template literal with the type spliced in). -/
def toastClassName (type : String) : String :=
  "toast align-items-center text-white bg-" ++ type ++ " border-0"

/-- Attributes set on every toast (popup.js lines 32-34). -/
def toastAttrs : List (String × String) :=
  [("role", "alert"), ("aria-live", "assertive"), ("aria-atomic", "true")]

/-- The `innerHTML` template literal (popup.js lines 35-40) with `message`
spliced in verbatim — no escaping is applied. -/
def toastTemplate (message : String) : String :=
  "\n            <div class=\"d-flex\">\n                <div class=\"toast-body\">"
    ++ message
    ++ "</div>\n                <button type=\"button\" class=\"btn-close btn-close-white me-2 m-auto\" data-bs-dismiss=\"toast\" aria-label=\"Close\"></button>\n            </div>\n        "

/-- The toast element `_showToast` constructs in state `st`. -/
def mkToast (st : NotifState) (type message : String) : Toast :=
  { id := st.nextId
    className := toastClassName type
    attrs := toastAttrs
    innerHTML := toastTemplate message
    bodyHTML := message
    hiddenListener := st.bootstrapPresent }

/-- `_showToast(type, message)` (popup.js lines 19-51).  Creates the
container if absent, builds the toast, appends it, then runs
`new bootstrap.Toast(toast)` — which throws when `bootstrap` is absent
(returned `Bool` is `true` iff that fault is raised; the append has already
happened at that point) — then `show()` and listener registration. -/
def _showToast (type message : String) (st : NotifState) : NotifState × Bool :=
  let container :=
    match st.container with
    | some c => c
    | none => { className := containerClass, zIndex := "9999", children := [] }
  let toast := mkToast st type message
  let container := { container with children := container.children ++ [toast] }
  ({ st with container := some container, nextId := st.nextId + 1 },
   !st.bootstrapPresent)

/-- `showSuccess(message)` (popup.js lines 3-5). -/
def showSuccess (message : String) (st : NotifState) : NotifState × Bool :=
  _showToast "success" ("✅ " ++ message) st

/-- `showWarning(message)` (popup.js lines 7-9). -/
def showWarning (message : String) (st : NotifState) : NotifState × Bool :=
  _showToast "warning" ("⚠️ " ++ message) st

/-- `showDanger(message)` (popup.js lines 11-13). -/
def showDanger (message : String) (st : NotifState) : NotifState × Bool :=
  _showToast "danger" ("❌ " ++ message) st

/-- `showInfo(message)` (popup.js lines 15-17). -/
def showInfo (message : String) (st : NotifState) : NotifState × Bool :=
  _showToast "info" ("ℹ️ " ++ message) st

/-- Dispatch of the `hidden.bs.toast` event for the toast node with identity
`i`: the listener registered at popup.js lines 48-50 calls `toast.remove()`.
A toast on which no listener was registered is left alone (nothing reacts to
the event); `remove()` on an already-detached node is a no-op, which is why
removal is modelled as a filter. -/
def fireHidden (st : NotifState) (i : Nat) : NotifState :=
  match st.container with
  | none => st
  | some c =>
    { st with
      container :=
        some { c with
               children :=
                 c.children.filter (fun t => !(t.hiddenListener && t.id == i)) } }

/-- The escaping that would render a message verbatim as text; `_showToast`
does NOT apply it (it assigns the message into `innerHTML` raw). -/
def escapeHTMLChar (c : Char) : String :=
  if c = '<' then "&lt;"
  else if c = '>' then "&gt;"
  else if c = '&' then "&amp;"
  else String.singleton c

/-- Escape a whole string for verbatim text rendering. -/
def escapeHTML (s : String) : String :=
  String.join (s.data.map escapeHTMLChar)

/-- A legacy alert element: its class list, its text content, and a node
identity (so `alert.remove()` removes exactly that node). -/
structure AlertNode where
  id : Nat
  classes : List String
  textContent : String
deriving DecidableEq

/-- Whether a node matches the selector `.alert.d-none` (popup.js line 56). -/
def isHiddenAlert (a : AlertNode) : Bool :=
  a.classes.contains "alert" && a.classes.contains "d-none"

/-- `document.querySelectorAll('.alert.d-none')`: a static snapshot of the
matching nodes, in document order. -/
def selectHiddenAlerts (alerts : List AlertNode) : List AlertNode :=
  alerts.filter isHiddenAlert

/-- The severity classification (popup.js lines 58-60): a chain of nested
conditional expressions, first match wins, defaulting to `"info"`. -/
def classify (a : AlertNode) : String :=
  if a.classes.contains "alert-success" then "success"
  else if a.classes.contains "alert-warning" then "warning"
  else if a.classes.contains "alert-danger" then "danger"
  else "info"

/-- `category.charAt(0).toUpperCase() + category.slice(1)`. -/
def capitalizeFirst (s : String) : String :=
  match s.data with
  | [] => ""
  | c :: rest => String.mk (c.toUpper :: rest)

/-- Whole-page state at migration time: the alert nodes in the document,
the notification state, whether `window.BudgeteerNotifications` exists, and
the property names present on it (`methods`; in the unmodified page this is
the five keys of the object literal). -/
structure PageState where
  alerts : List AlertNode
  notif : NotifState
  notifierPresent : Bool
  methods : List String
deriving DecidableEq

/-- JS `String.prototype.trim`: drop whitespace from both ends (executable
over the character list). -/
def jsTrim (s : String) : String :=
  String.mk
    (((s.data.dropWhile Char.isWhitespace).reverse.dropWhile
        Char.isWhitespace).reverse)

/-- The property names of the `BudgeteerNotifications` object literal. -/
def standardMethods : List String :=
  ["showSuccess", "showWarning", "showDanger", "showInfo", "_showToast"]

/-- `window.BudgeteerNotifications['show' + ...](message)`: dispatch by
computed property name.  The object literal defines exactly the four show
methods (plus `_showToast`); the migration code only reaches this call after
checking the property exists. -/
def callShow (name message : String) (st : NotifState) : NotifState × Bool :=
  if name = "showSuccess" then showSuccess message st
  else if name = "showWarning" then showWarning message st
  else if name = "showDanger" then showDanger message st
  else if name = "showInfo" then showInfo message st
  else (st, false)

/-- `node.remove()` for an alert node: detaches that node (identified by
`id`) from the document. -/
def removeNode (alerts : List AlertNode) (a : AlertNode) : List AlertNode :=
  alerts.filter (fun x => x.id != a.id)

/-- The body of the `forEach` callback (popup.js lines 57-67) for one alert:
classify, trim the text content, invoke the show method if
`window.BudgeteerNotifications` and the method exist, then `alert.remove()`.
If the show call throws (missing `bootstrap`), the exception propagates out
of the callback before `alert.remove()` runs: the returned `Bool` is `true`
and the node is NOT removed. -/
def migrateAlert (ps : PageState) (a : AlertNode) : PageState × Bool :=
  let category := classify a
  let message := jsTrim a.textContent
  let methodName := "show" ++ capitalizeFirst category
  if ps.notifierPresent && ps.methods.contains methodName then
    let r := callShow methodName message ps.notif
    if r.2 then ({ ps with notif := r.1 }, true)
    else ({ ps with notif := r.1, alerts := removeNode ps.alerts a }, false)
  else
    ({ ps with alerts := removeNode ps.alerts a }, false)

/-- `alerts.forEach(...)` over the static snapshot: an exception raised in
the callback aborts the iteration (it propagates out of `forEach`). -/
def runMigration : List AlertNode → PageState → PageState × Bool
  | [], ps => (ps, false)
  | a :: rest, ps =>
    let r := migrateAlert ps a
    if r.2 then (r.1, true) else runMigration rest r.1

/-- The `DOMContentLoaded` handler (popup.js lines 55-68). -/
def domContentLoaded (ps : PageState) : PageState × Bool :=
  runMigration (selectHiddenAlerts ps.alerts) ps

/-- Contiguous-substring test on character lists: does the list start with
`pat`? -/
def hasPrefixL : List Char → List Char → Bool
  | [], _ => true
  | _ :: _, [] => false
  | p :: ps, c :: cs => p == c && hasPrefixL ps cs

/-- Does `pat` occur contiguously somewhere in the list? -/
def hasSubL (pat : List Char) : List Char → Bool
  | [] => hasPrefixL pat []
  | c :: cs => hasPrefixL pat (c :: cs) || hasSubL pat cs

/-- `pat` occurs as a contiguous substring of `s` (models "class contains
the marker"). -/
def strContainsSub (s pat : String) : Bool :=
  hasSubL pat.data s.data

/-- A fresh page: no container yet, fresh-node counter 0, bootstrap loaded. -/
def initialState : NotifState :=
  { container := none, nextId := 0, bootstrapPresent := true }

/-- A fresh page in a host environment without the bootstrap global. -/
def noBootstrapState : NotifState :=
  { container := none, nextId := 0, bootstrapPresent := false }

/-- The glyph each entry point prepends to its message (popup.js lines 3-17),
keyed by the severity string passed to `_showToast`. -/
def glyphFor (category : String) : String :=
  if category = "success" then "✅ "
  else if category = "warning" then "⚠️ "
  else if category = "danger" then "❌ "
  else "ℹ️ "

theorem showToast_children (ty m : String) (st : NotifState) :
    containerChildren (_showToast ty m st).1
      = containerChildren st ++ [mkToast st ty m] := by
  cases h : st.container <;> simp [_showToast, containerChildren, h]

theorem showToast_bootstrap (ty m : String) (st : NotifState) :
    (_showToast ty m st).1.bootstrapPresent = st.bootstrapPresent := rfl

theorem showToast_fault (ty m : String) (st : NotifState) :
    (_showToast ty m st).2 = !st.bootstrapPresent := rfl

theorem callShow_bootstrap (n m : String) (st : NotifState) :
    (callShow n m st).1.bootstrapPresent = st.bootstrapPresent := by
  unfold callShow
  split
  · rfl
  · split
    · rfl
    · split
      · rfl
      · split <;> rfl

theorem callShow_fault (n m : String) (st : NotifState)
    (h : (callShow n m st).2 = true) : st.bootstrapPresent = false := by
  unfold callShow at h
  split at h
  · simpa [showSuccess, showToast_fault] using h
  · split at h
    · simpa [showWarning, showToast_fault] using h
    · split at h
      · simpa [showDanger, showToast_fault] using h
      · split at h
        · simpa [showInfo, showToast_fault] using h
        · simp at h

theorem classify_cases (a : AlertNode) :
    classify a = "success" ∨ classify a = "warning"
      ∨ classify a = "danger" ∨ classify a = "info" := by
  unfold classify
  split
  · exact Or.inl rfl
  · split
    · exact Or.inr (Or.inl rfl)
    · split
      · exact Or.inr (Or.inr (Or.inl rfl))
      · exact Or.inr (Or.inr (Or.inr rfl))

theorem callShow_classified (cat m : String) (st : NotifState)
    (h : cat = "success" ∨ cat = "warning" ∨ cat = "danger" ∨ cat = "info") :
    callShow ("show" ++ capitalizeFirst cat) m st
      = _showToast cat (glyphFor cat ++ m) st := by
  rcases h with h | h | h | h <;> subst h <;> rfl

/-- Claim C1: each of the four entry points appends exactly one new toast to
the container, whose body markup is the message prefixed with the severity's
glyph (so for a plain-text message, the body text) and whose class string
contains the severity marker; and concretely `showSuccess("Budget saved")`
on a fresh page yields one toast with body text `✅ Budget saved`.  Proved
for every message (any non-empty message in particular). -/
theorem show_entry_points_spec (st : NotifState) (m : String) :
    (∃ t, containerChildren (showSuccess m st).1 = containerChildren st ++ [t]
        ∧ t.bodyHTML = "✅ " ++ m ∧ t.className = toastClassName "success"
        ∧ strContainsSub (toastClassName "success") "success" = true)
    ∧ (∃ t, containerChildren (showWarning m st).1 = containerChildren st ++ [t]
        ∧ t.bodyHTML = "⚠️ " ++ m ∧ t.className = toastClassName "warning"
        ∧ strContainsSub (toastClassName "warning") "warning" = true)
    ∧ (∃ t, containerChildren (showDanger m st).1 = containerChildren st ++ [t]
        ∧ t.bodyHTML = "❌ " ++ m ∧ t.className = toastClassName "danger"
        ∧ strContainsSub (toastClassName "danger") "danger" = true)
    ∧ (∃ t, containerChildren (showInfo m st).1 = containerChildren st ++ [t]
        ∧ t.bodyHTML = "ℹ️ " ++ m ∧ t.className = toastClassName "info"
        ∧ strContainsSub (toastClassName "info") "info" = true)
    ∧ (containerChildren (showSuccess "Budget saved" initialState).1).map
        Toast.bodyHTML = ["✅ Budget saved"] :=
  ⟨⟨mkToast st "success" ("✅ " ++ m), showToast_children _ _ _, rfl, rfl, by decide⟩,
   ⟨mkToast st "warning" ("⚠️ " ++ m), showToast_children _ _ _, rfl, rfl, by decide⟩,
   ⟨mkToast st "danger" ("❌ " ++ m), showToast_children _ _ _, rfl, rfl, by decide⟩,
   ⟨mkToast st "info" ("ℹ️ " ++ m), showToast_children _ _ _, rfl, rfl, by decide⟩,
   by rfl⟩

/-- Claim C3: the container is a lazily created singleton anchored top-right:
when no container exists, `_showToast` creates exactly one (with the fixed
positioning class string, which contains `top-0 end-0` and `position-fixed`)
holding just the new toast; when one exists it is reused unchanged except
that the new toast is appended at the end (insertion order). -/
theorem container_singleton_spec (st : NotifState) (ty m : String) :
    (st.container = none →
      (_showToast ty m st).1.container
        = some { className := containerClass, zIndex := "9999",
                 children := [mkToast st ty m] })
    ∧ (∀ c, st.container = some c →
      (_showToast ty m st).1.container
        = some { c with children := c.children ++ [mkToast st ty m] })
    ∧ strContainsSub containerClass "top-0 end-0" = true
    ∧ strContainsSub containerClass "position-fixed" = true := by
  refine ⟨?_, ?_, by decide, by decide⟩
  · intro h
    simp [_showToast, h]
  · intro c h
    simp [_showToast, h]

/-- Claim C4: severity classification is first-match-wins in the order
success > warning > danger, defaulting to `info` when no severity marker
class is present; a node carrying several markers is classified by the
highest-priority one. -/
theorem classify_first_match (a : AlertNode) :
    (a.classes.contains "alert-success" = false
      → a.classes.contains "alert-warning" = false
      → a.classes.contains "alert-danger" = false
      → classify a = "info")
    ∧ (a.classes.contains "alert-success" = true → classify a = "success")
    ∧ (a.classes.contains "alert-success" = false
      → a.classes.contains "alert-warning" = true
      → classify a = "warning")
    ∧ (a.classes.contains "alert-success" = false
      → a.classes.contains "alert-warning" = false
      → a.classes.contains "alert-danger" = true
      → classify a = "danger") := by
  refine ⟨?_, ?_, ?_, ?_⟩ <;> intros <;> simp_all [classify]

/-- Claim C4 witness: a node carrying both the danger and the success marker
is classified as success (the highest-priority match). -/
theorem classify_first_match_witness :
    classify ⟨0, ["alert", "alert-danger", "alert-success"], ""⟩ = "success" :=
  (classify_first_match _).2.1 (by decide)

/-- Claim C5, counterexample: with the bootstrap global absent, a direct
show call raises a fault (the `new bootstrap.Toast(toast)` ReferenceError)
— it does not fail silently as claimed. -/
theorem show_silent_failure_cex :
    (showSuccess "Budget saved" noBootstrapState).2 = true := rfl

/-- Claim C5 as amended: the four show entry points are side-effecting only
(no meaningful return value), but they do NOT fail silently when the
toast-widget dependency is missing: each raises a fault exactly when the
bootstrap global is absent (the toast node having already been appended);
only the migration path carries an existence guard. -/
theorem show_fault_policy (st : NotifState) (m : String) :
    (showSuccess m st).2 = !st.bootstrapPresent
    ∧ (showWarning m st).2 = !st.bootstrapPresent
    ∧ (showDanger m st).2 = !st.bootstrapPresent
    ∧ (showInfo m st).2 = !st.bootstrapPresent :=
  ⟨rfl, rfl, rfl, rfl⟩

/-- Claim C9: no entry point validates its message: called with the empty
string, each still appends exactly one toast whose body is just the glyph
prefix (glyph plus the separating space); concretely, `showDanger("")` on a
fresh page yields one toast with body `❌ `. -/
theorem empty_message_spec (st : NotifState) :
    (∃ t, containerChildren (showDanger "" st).1 = containerChildren st ++ [t]
        ∧ t.bodyHTML = "❌ ")
    ∧ (∃ t, containerChildren (showSuccess "" st).1 = containerChildren st ++ [t]
        ∧ t.bodyHTML = "✅ ")
    ∧ (∃ t, containerChildren (showWarning "" st).1 = containerChildren st ++ [t]
        ∧ t.bodyHTML = "⚠️ ")
    ∧ (∃ t, containerChildren (showInfo "" st).1 = containerChildren st ++ [t]
        ∧ t.bodyHTML = "ℹ️ ")
    ∧ (containerChildren (showDanger "" initialState).1).map Toast.bodyHTML
        = ["❌ "] :=
  ⟨⟨mkToast st "danger" ("❌ " ++ ""), showToast_children _ _ _, rfl⟩,
   ⟨mkToast st "success" ("✅ " ++ ""), showToast_children _ _ _, rfl⟩,
   ⟨mkToast st "warning" ("⚠️ " ++ ""), showToast_children _ _ _, rfl⟩,
   ⟨mkToast st "info" ("ℹ️ " ++ ""), showToast_children _ _ _, rfl⟩,
   by rfl⟩

/-- Claim C10: the message is spliced into the toast's `innerHTML` verbatim
— `escapeHTML` is never applied — so the toast-body markup IS the message,
and any tags in a caller-supplied message become DOM structure rather than
visible text (as the concrete tagged example shows, escaping would have
produced a different, entity-encoded string). -/
theorem raw_innerHTML_spec (st : NotifState) (ty m : String) :
    (∃ t, containerChildren (_showToast ty m st).1 = containerChildren st ++ [t]
        ∧ t.innerHTML = toastTemplate m ∧ t.bodyHTML = m)
    ∧ escapeHTML "<b>hi</b>" = "&lt;b&gt;hi&lt;/b&gt;"
    ∧ ("<b>hi</b>" : String) ≠ escapeHTML "<b>hi</b>"
    ∧ (containerChildren (showInfo "<b>hi</b>" initialState).1).map Toast.bodyHTML
        = ["ℹ️ <b>hi</b>"] :=
  ⟨⟨mkToast st ty m, showToast_children _ _ _, rfl, rfl⟩,
   by decide, by decide, by rfl⟩

theorem migrateAlert_noFault (ps : PageState) (a : AlertNode)
    (hB : ps.notif.bootstrapPresent = true) :
    (migrateAlert ps a).2 = false
    ∧ (migrateAlert ps a).1.alerts = removeNode ps.alerts a
    ∧ (migrateAlert ps a).1.notif.bootstrapPresent = true := by
  by_cases hg : ps.notifierPresent = true
      ∧ ("show" ++ capitalizeFirst (classify a)) ∈ ps.methods
  · obtain ⟨hN, hM⟩ := hg
    have hf : (callShow ("show" ++ capitalizeFirst (classify a))
        (jsTrim a.textContent) ps.notif).2 = false := by
      cases hf2 : (callShow ("show" ++ capitalizeFirst (classify a))
          (jsTrim a.textContent) ps.notif).2
      · rfl
      · have := callShow_fault _ _ _ hf2
        rw [hB] at this
        exact absurd this (by simp)
    simp [migrateAlert, hN, hM, hf, callShow_bootstrap, hB]
  · simp [migrateAlert, hg, hB]

theorem runMigration_spec (l : List AlertNode) (ps : PageState)
    (hB : ps.notif.bootstrapPresent = true) :
    (runMigration l ps).2 = false
    ∧ (runMigration l ps).1.alerts
        = ps.alerts.filter (fun x => l.all (fun a => x.id != a.id))
    ∧ (runMigration l ps).1.notif.bootstrapPresent = true := by
  induction l generalizing ps with
  | nil =>
    simp [runMigration, hB]
  | cons a rest ih =>
    obtain ⟨hf, ha, hb⟩ := migrateAlert_noFault ps a hB
    obtain ⟨ihf, iha, ihb⟩ := ih (migrateAlert ps a).1 hb
    refine ⟨?_, ?_, ?_⟩
    · simp [runMigration, hf, ihf]
    · have : (runMigration (a :: rest) ps).1 = (runMigration rest (migrateAlert ps a).1).1 := by
        simp [runMigration, hf]
      rw [this, iha, ha]
      unfold removeNode
      rw [List.filter_filter]
      refine List.filter_congr ?_
      intro x _
      rw [List.all_cons, Bool.and_comm]
    · have : (runMigration (a :: rest) ps).1 = (runMigration rest (migrateAlert ps a).1).1 := by
        simp [runMigration, hf]
      rw [this]
      exact ihb

theorem migrateAlert_toast_bound (ps : PageState) (a : AlertNode) :
    (containerChildren (migrateAlert ps a).1.notif).length
      ≤ (containerChildren ps.notif).length + 1 := by
  have hcall := callShow_classified (classify a) (jsTrim a.textContent) ps.notif
    (classify_cases a)
  by_cases hg : ps.notifierPresent = true
      ∧ ("show" ++ capitalizeFirst (classify a)) ∈ ps.methods
  · obtain ⟨hN, hM⟩ := hg
    cases hf : (_showToast (classify a)
        (glyphFor (classify a) ++ jsTrim a.textContent) ps.notif).2 <;>
      simp [migrateAlert, hN, hM, hcall, hf, showToast_children]
  · simp [migrateAlert, hg]

/-- Claim C2 as amended: provided the toast-widget dependency (the bootstrap
global) is present, the load handler completes without fault, removes every
hidden legacy alert node — also when the existence guard skipped the
notification — and each migrated node yields at most one new toast.  (The
unamended claim fails only when a show call inside the handler faults on a
missing bootstrap global: the exception aborts the loop before
`alert.remove()`, see the counterexample.) -/
theorem migration_removes_hidden_alerts (ps : PageState)
    (hB : ps.notif.bootstrapPresent = true) :
    (domContentLoaded ps).2 = false
    ∧ (∀ a, a ∈ (domContentLoaded ps).1.alerts → isHiddenAlert a = false)
    ∧ (∀ a, (containerChildren (migrateAlert ps a).1.notif).length
          ≤ (containerChildren ps.notif).length + 1) := by
  obtain ⟨h1, h2, _⟩ := runMigration_spec (selectHiddenAlerts ps.alerts) ps hB
  refine ⟨h1, ?_, fun a => migrateAlert_toast_bound ps a⟩
  intro a hmem
  unfold domContentLoaded at hmem
  rw [h2] at hmem
  rw [List.mem_filter] at hmem
  obtain ⟨hmem, hall⟩ := hmem
  cases hic : isHiddenAlert a
  · rfl
  · exfalso
    have hsel : a ∈ selectHiddenAlerts ps.alerts := by
      unfold selectHiddenAlerts
      rw [List.mem_filter]
      exact ⟨hmem, hic⟩
    have := (List.all_eq_true.mp hall) a hsel
    simp at this

/-- Claim C2 witness: on a concrete page (one hidden success alert, one
visible alert, bootstrap present) the handler completes without fault. -/
theorem migration_removes_hidden_alerts_witness :
    (domContentLoaded
      { alerts := [⟨0, ["alert", "alert-success", "d-none"], "Saved"⟩,
                   ⟨1, ["alert", "alert-info"], "visible"⟩]
        notif := initialState
        notifierPresent := true
        methods := standardMethods }).2 = false :=
  (migration_removes_hidden_alerts _ rfl).1

/-- A concrete page for the C2 counterexample: one hidden alert, the
Notifier object present, the bootstrap global absent. -/
def psNoBootstrap : PageState :=
  { alerts := [⟨0, ["alert", "d-none"], "hi"⟩]
    notif := noBootstrapState
    notifierPresent := true
    methods := standardMethods }

/-- Claim C2, counterexample to the unamended claim: with the bootstrap
global absent, the show call for the (hidden) alert node throws, the
exception aborts the handler before `alert.remove()`, and the hidden legacy
alert node survives the load handler — so removal is not unconditional. -/
theorem migration_unconditional_removal_cex :
    isHiddenAlert ⟨0, ["alert", "d-none"], "hi"⟩ = true
    ∧ (domContentLoaded psNoBootstrap).2 = true
    ∧ (domContentLoaded psNoBootstrap).1.alerts
        = [⟨0, ["alert", "d-none"], "hi"⟩] :=
  ⟨rfl, rfl, rfl⟩

/-- Claim C6: dismissal removes the toast and is idempotent: after the
`hidden.bs.toast` event fires for node identity `i`, no toast carrying the
removal listener and that identity remains in the container, and firing the
same event again is a no-op (same state, no fault — `fireHidden` is total). -/
theorem toast_dismissal_spec (st : NotifState) (i : Nat) :
    (∀ t, t ∈ containerChildren (fireHidden st i)
      → t.hiddenListener = true → t.id ≠ i)
    ∧ fireHidden (fireHidden st i) i = fireHidden st i := by
  constructor
  · intro t ht hl
    cases h : st.container with
    | none =>
      simp [fireHidden, containerChildren, h] at ht
    | some c =>
      simp only [fireHidden, h, containerChildren, List.mem_filter] at ht
      simp only [hl, Bool.true_and, Bool.not_eq_eq_eq_not, Bool.not_true] at ht
      intro hi
      rw [hi] at ht
      simp at ht
  · cases h : st.container with
    | none => simp [fireHidden, h]
    | some c => simp [fireHidden, h, List.filter_filter]

/-- A toast with identity 1 and the removal listener registered, sitting in
`twoToastState` next to an identity-0 twin. -/
def survivorToast : Toast :=
  { id := 1, className := toastClassName "info", attrs := toastAttrs
    innerHTML := toastTemplate "b", bodyHTML := "b", hiddenListener := true }

/-- A container holding toast identities 0 and 1, both with listeners. -/
def twoToastState : NotifState :=
  { container := some
      { className := containerClass, zIndex := "9999"
        children := [{ survivorToast with id := 0 }, survivorToast] }
    nextId := 2
    bootstrapPresent := true }

/-- Claim C6 witness: in a container holding toasts 0 and 1 (both with the
removal listener), firing dismissal for toast 0 leaves toast 1, whose
identity differs from 0. -/
theorem toast_dismissal_spec_witness : survivorToast.id ≠ 0 :=
  (toast_dismissal_spec twoToastState 0).1 survivorToast
    (by simp [twoToastState, fireHidden, containerChildren, survivorToast]) rfl

/-- Claim C3 witness: on a fresh page, the first show call creates the
container (top-right positioning classes) holding exactly the new toast. -/
theorem container_singleton_spec_witness :
    (_showToast "info" "x" initialState).1.container
      = some { className := containerClass, zIndex := "9999",
               children := [mkToast initialState "info" "x"] } :=
  (container_singleton_spec initialState "info" "x").1 rfl

/-- Claim C10 witness: escaping the tagged example message would have
produced the entity-encoded string, which the code never does. -/
theorem raw_innerHTML_spec_witness :
    escapeHTML "<b>hi</b>" = "&lt;b&gt;hi&lt;/b&gt;" :=
  (raw_innerHTML_spec initialState "info" "x").2.1

/-- Claim C7: when the Notifier object and the method derived from the
severity exist, migration of a legacy alert node appends one toast built
from the node's trimmed text content: its body is the severity glyph
followed by `textContent.trim`, its class is the severity's toast class,
and (the show call not faulting, bootstrap being present) the original node
is removed from the page. -/
theorem migration_message_trimmed (ps : PageState) (a : AlertNode)
    (hN : ps.notifierPresent = true)
    (hM : ("show" ++ capitalizeFirst (classify a)) ∈ ps.methods)
    (hB : ps.notif.bootstrapPresent = true) :
    containerChildren (migrateAlert ps a).1.notif
      = containerChildren ps.notif
          ++ [mkToast ps.notif (classify a)
                (glyphFor (classify a) ++ jsTrim a.textContent)]
    ∧ (mkToast ps.notif (classify a)
         (glyphFor (classify a) ++ jsTrim a.textContent)).bodyHTML
        = glyphFor (classify a) ++ jsTrim a.textContent
    ∧ (mkToast ps.notif (classify a)
         (glyphFor (classify a) ++ jsTrim a.textContent)).className
        = toastClassName (classify a)
    ∧ (migrateAlert ps a).1.alerts = removeNode ps.alerts a := by
  have hcall := callShow_classified (classify a) (jsTrim a.textContent) ps.notif
    (classify_cases a)
  have hf : (_showToast (classify a)
      (glyphFor (classify a) ++ jsTrim a.textContent) ps.notif).2 = false := by
    rw [showToast_fault, hB]
    rfl
  refine ⟨?_, rfl, rfl, ?_⟩ <;>
    simp [migrateAlert, hN, hM, hcall, hf, showToast_children]

/-- The legacy alert node of the spec's worked example: classes
`alert alert-warning d-none`, text " Low balance ". -/
def alertLowBalance : AlertNode :=
  { id := 0, classes := ["alert", "alert-warning", "d-none"]
    textContent := " Low balance " }

/-- A fresh page containing only the worked-example alert node. -/
def psLowBalance : PageState :=
  { alerts := [alertLowBalance]
    notif := initialState
    notifierPresent := true
    methods := standardMethods }

/-- Claim C7 witness: the spec's worked example — the hidden
`alert alert-warning d-none` node with text " Low balance " yields a
warning toast with body `⚠️ Low balance` (trimmed) and the node is
removed. -/
theorem migration_message_trimmed_witness :
    (containerChildren (migrateAlert psLowBalance alertLowBalance).1.notif).map
        Toast.bodyHTML = ["⚠️ Low balance"]
    ∧ (migrateAlert psLowBalance alertLowBalance).1.alerts = [] := by
  obtain ⟨h1, _, _, h4⟩ :=
    migration_message_trimmed psLowBalance alertLowBalance rfl (by decide) rfl
  constructor
  · rw [h1]
    rfl
  · rw [h4]
    rfl

/-- Claim C8: the migration path guards every invocation behind an
existence check: when `window.BudgeteerNotifications` is absent or lacks
the method named after the derived severity, the conversion for the node is
silently skipped — no fault, the notification state untouched — while the
node is still removed from the page. -/
theorem migration_guard_spec (ps : PageState) (a : AlertNode)
    (h : ps.notifierPresent = false
      ∨ ("show" ++ capitalizeFirst (classify a)) ∉ ps.methods) :
    (migrateAlert ps a).2 = false
    ∧ (migrateAlert ps a).1.notif = ps.notif
    ∧ (migrateAlert ps a).1.alerts = removeNode ps.alerts a := by
  have hg : ¬(ps.notifierPresent = true
      ∧ ("show" ++ capitalizeFirst (classify a)) ∈ ps.methods) := by
    rcases h with h | h
    · intro hc
      rw [h] at hc
      exact absurd hc.1 (by simp)
    · intro hc
      exact h hc.2
  simp [migrateAlert, hg]

/-- The node used in the C8 witness page. -/
def alertGuard : AlertNode :=
  { id := 0, classes := ["alert", "d-none"], textContent := "hi" }

/-- A page whose Notifier object is missing (e.g. clobbered before load). -/
def psGuard : PageState :=
  { alerts := [alertGuard]
    notif := initialState
    notifierPresent := false
    methods := [] }

/-- Claim C8 witness: with the Notifier object missing, migrating a node
leaves the notification state untouched (the call is skipped silently). -/
theorem migration_guard_spec_witness :
    (migrateAlert psGuard alertGuard).1.notif = psGuard.notif :=
  (migration_guard_spec psGuard alertGuard (Or.inl rfl)).2.1
